import Mathlib

/-!
Shallow embedding of the Art Shop application (single-file Express app,
`src/unnamed/part_001`) for checking the specification's claims about the
order/checkout flow, the social layer (wishlist, likes, comments) and the
admin back-office.

Conventions of the embedding:
* SQLite rows become Lean structures; the database becomes an explicit
  `State` record of lists (insertion order = `created_at` ascending, since
  ids are AUTOINCREMENT and timestamps monotone).
* JavaScript form fields are `Option String` (`none` = the field is absent
  from the request body); JS truthiness on such a field is
  `none`/`some ""` ↦ false, otherwise true.
* `parseInt` is modelled for decimal inputs (optional sign, maximal digit
  prefix after trimming whitespace; `none` = NaN).  The `0x` radix
  auto-detection of JS is not exercised by any route input.
* SQL `JOIN` (inner join) is `filterMap` over the left table with a
  `find?` into the right one; `ORDER BY created_at DESC` is `reverse`.
* The node-sqlite3 driver materialises each result row as a plain object
  assigning columns left to right, so in `SELECT c.*, u.name AS user_name`
  the later `u.name` column overwrites the `user_name` column of `c.*`.
  The comment view structures below reflect that.
* Storage-level outcomes that the app only sees through an error callback
  (a unique-constraint violation racing past the existence check) are an
  explicit `DbOutcome` parameter of the toggle operations.
-/

/-- A row of the `artworks` table (`CREATE TABLE artworks`, part_001
lines 227-234).  `price REAL` is modelled as `Rat`. -/
structure Artwork where
  id : Nat
  title : String
  description : String
  price : Rat
  image_path : String
deriving DecidableEq, Repr

/-- A row of the `orders` table (part_001 lines 236-248).  Note there is
no price column; `status` defaults to `"pending"` at insert. -/
structure Order where
  id : Nat
  artwork_id : Nat
  buyer_name : String
  buyer_email : Option String
  phone : String
  address : String
  payment_method : String
  quantity : Int
  status : String
deriving DecidableEq, Repr

/-- A row of the `users` table (part_001 lines 255-261); `name` is
nullable. -/
structure User where
  id : Nat
  email : String
  password : String
  name : Option String
deriving DecidableEq, Repr

/-- A row of the `artwork_comments` table (part_001 lines 295-304).
`user_name` is the display name denormalised at write time. -/
structure CommentRow where
  id : Nat
  user_id : Nat
  artwork_id : Nat
  user_name : String
  comment : String
deriving DecidableEq, Repr

/-- The persistent state: the tables the claims touch, plus the next
AUTOINCREMENT ids for `orders` and `artwork_comments`.  `wishlist` and
`artwork_likes` rows are their `(user_id, artwork_id)` pairs. -/
structure State where
  artworks : List Artwork
  orders : List Order
  users : List User
  wishlist : List (Nat × Nat)
  likes : List (Nat × Nat)
  comments : List CommentRow
  nextOrderId : Nat
  nextCommentId : Nat
deriving DecidableEq, Repr

/-- JS truthiness of a string-typed form field: absent or empty is falsy. -/
def truthy (s : Option String) : Bool :=
  match s with
  | none => false
  | some str => str ≠ ""

/-- The field's string value, with the absent field reading as `""` (only
ever used behind a truthiness guard, as in the source). -/
def fieldVal (s : Option String) : String := s.getD ""

/-- Characters removed by JS `String.prototype.trim` at either end,
as exercised by the app's inputs. -/
def trimChars (cs : List Char) : List Char :=
  ((cs.dropWhile Char.isWhitespace).reverse.dropWhile Char.isWhitespace).reverse

/-- JS `.trim()`: strip whitespace from both ends.  (A kernel-reducible
model of the string primitive, defined on the character list.) -/
def jsTrim (s : String) : String := ⟨trimChars s.data⟩

/-- JS `.length` (code-unit count; the inputs concerned are ASCII, where
it coincides with the character count). -/
def jsLen (s : String) : Nat := s.data.length

/-- Value of the maximal leading run of decimal digits; `none` when the
first character is not a digit (JS `parseInt` → NaN). -/
def leadingDigits (cs : List Char) : Option Nat :=
  let ds := cs.takeWhile Char.isDigit
  if ds.isEmpty then none
  else some (ds.foldl (fun n c => 10 * n + (c.toNat - 48)) 0)

/-- JS `parseInt` on a (present) string, decimal fragment: skip
whitespace, optional sign, maximal digit prefix; `none` models NaN. -/
def jsParseInt (str : String) : Option Int :=
  match (jsTrim str).data with
  | '-' :: rest => (leadingDigits rest).map (fun n => -(n : Int))
  | '+' :: rest => (leadingDigits rest).map (fun n => (n : Int))
  | cs => (leadingDigits cs).map (fun n => (n : Int))

/-- Quantity defaulting `parseInt(quantity) || 1` (part_001 line 449): an absent field,
unparseable string (NaN) *or a parse result of 0* — both falsy — fall
back to 1. -/
def jsQty (q : Option String) : Int :=
  match q.bind jsParseInt with
  | none => 1
  | some n => if n = 0 then 1 else n

/-- The checkout request body of `POST /buy/:id` (part_001 line 438). -/
structure BuyRequest where
  buyer_name : Option String
  buyer_email : Option String
  phone : Option String
  address1 : Option String
  address2 : Option String
  pincode : Option String
  payment_method : Option String
  quantity : Option String
deriving DecidableEq, Repr

/-- Check `!buyer_name || buyer_name.trim().length < 2` (line 442). -/
def nameFail (r : BuyRequest) : Bool :=
  !truthy r.buyer_name || jsLen (jsTrim (fieldVal r.buyer_name)) < 2

/-- Check `!phone || phone.trim().length < 10` (line 443). -/
def phoneFail (r : BuyRequest) : Bool :=
  !truthy r.phone || jsLen (jsTrim (fieldVal r.phone)) < 10

/-- Check `!address1 || address1.trim().length < 5` (line 444). -/
def addr1Fail (r : BuyRequest) : Bool :=
  !truthy r.address1 || jsLen (jsTrim (fieldVal r.address1)) < 5

/-- Check `!pincode || pincode.trim().length < 6` (line 445). -/
def pinFail (r : BuyRequest) : Bool :=
  !truthy r.pincode || jsLen (jsTrim (fieldVal r.pincode)) < 6

/-- Check `!['cod', 'online'].includes(payment_method)` (line 446). -/
def payFail (r : BuyRequest) : Bool :=
  !(r.payment_method == some "cod" || r.payment_method == some "online")

/-- Check `qty < 1 || qty > 5` on the defaulted quantity (line 450). -/
def qtyFail (r : BuyRequest) : Bool :=
  jsQty r.quantity < 1 || jsQty r.quantity > 5

/-- The `errors` array built by `POST /buy/:id` (part_001 lines 441-450):
every check runs and pushes its message independently of the others. -/
def validationErrors (r : BuyRequest) : List String :=
  (if nameFail r then ["Full name is required"] else []) ++
  (if phoneFail r then ["Valid phone number is required (minimum 10 digits)"] else []) ++
  (if addr1Fail r then ["Address line 1 is required"] else []) ++
  (if pinFail r then ["Valid pin code is required (6 digits)"] else []) ++
  (if payFail r then ["Invalid payment method"] else []) ++
  (if qtyFail r then ["Quantity must be between 1 and 5"] else [])

/-- Address composition of `POST /buy/:id` (part_001 lines 462-463):
`address2 ? \x7bline1, line2\x7d : line1`, then `", Pin: <pincode>"`. -/
def composeAddress (r : BuyRequest) : String :=
  let fullAddress :=
    if truthy r.address2 then
      jsTrim (fieldVal r.address1) ++ ", " ++ jsTrim (fieldVal r.address2)
    else jsTrim (fieldVal r.address1)
  fullAddress ++ ", Pin: " ++ jsTrim (fieldVal r.pincode)

/-- Result of `POST /buy/:id`: 404, re-rendered checkout with the error
list / total / defaulted quantity, or the order-success view. -/
inductive BuyResult where
  | notFound
  | validationFailed (errors : List String) (totalPrice : Rat) (qty : Int)
  | success (orderId : Nat) (art : Artwork) (qty : Int)
deriving DecidableEq, Repr

/-- Route `POST /buy/:id` (part_001 lines 436-472): validate all fields, look
up the artwork (404 when absent), on any error re-render with
`totalPrice = art.price * qty` and no write, otherwise insert the order
row (status left to its `'pending'` column default) and show the
confirmation. -/
def placeOrder (s : State) (artId : Nat) (r : BuyRequest) : BuyResult × State :=
  match s.artworks.find? (fun a => a.id == artId) with
  | none => (.notFound, s)
  | some art =>
    let errs := validationErrors r
    let qty := jsQty r.quantity
    if errs.isEmpty then
      let order : Order :=
        { id := s.nextOrderId
          artwork_id := artId
          buyer_name := jsTrim (fieldVal r.buyer_name)
          buyer_email := if truthy r.buyer_email then some (jsTrim (fieldVal r.buyer_email)) else none
          phone := jsTrim (fieldVal r.phone)
          address := composeAddress r
          payment_method := fieldVal r.payment_method
          quantity := qty
          status := "pending" }
      (.success s.nextOrderId art qty,
        { s with orders := s.orders ++ [order], nextOrderId := s.nextOrderId + 1 })
    else
      (.validationFailed errs (art.price * (qty : Rat)) qty, s)

/-- Route `POST /admin/order/:id/status` (part_001 lines 910-917):
`UPDATE orders SET status = ? WHERE id = ?` — a direct unconditional
write of the submitted string. -/
def updateStatus (s : State) (orderId : Nat) (st : String) : State :=
  { s with orders := s.orders.map (fun o => if o.id == orderId then { o with status := st } else o) }

/-- Outcome the storage layer reports to an insert callback.  The toggle
routes check existence first, so a `uniqueViolation` only reaches them
when a concurrent insert won the race between the check and the write. -/
inductive DbOutcome where
  | ok
  | uniqueViolation
deriving DecidableEq, Repr

/-- The JSON body a toggle route answers with. -/
structure ToggleResponse where
  success : Bool
  liked : Option Bool
  likeCount : Option Nat
  error : Option String
deriving DecidableEq, Repr

/-- Route `POST /wishlist/toggle` (part_001 lines 395-433), past the login
guard: parse guard on the artwork id, existence check, then delete or
insert; an insert error — a unique violation included — is answered with
`success:false, error:'Failed to add to wishlist'` (lines 426-428). -/
def toggleWishlist (s : State) (userId artId : Nat) (ins : DbOutcome) :
    ToggleResponse × State :=
  if artId == 0 then
    ({ success := false, liked := none, likeCount := none, error := some "Artwork ID required" }, s)
  else
    match s.wishlist.find? (fun p => p.1 == userId && p.2 == artId) with
    | some _ =>
      ({ success := true, liked := some false, likeCount := none, error := none },
        { s with wishlist := s.wishlist.filter (fun p => !(p.1 == userId && p.2 == artId)) })
    | none =>
      match ins with
      | .ok =>
        ({ success := true, liked := some true, likeCount := none, error := none },
          { s with wishlist := s.wishlist ++ [(userId, artId)] })
      | .uniqueViolation =>
        ({ success := false, liked := none, likeCount := none, error := some "Failed to add to wishlist" }, s)

/-- Query `COUNT(*) FROM artwork_likes WHERE artwork_id = ?`. -/
def likeCountOf (likes : List (Nat × Nat)) (artId : Nat) : Nat :=
  (likes.filter (fun p => p.2 == artId)).length

/-- Route `POST /art/:id/like` (part_001 lines 687-741), past the login guard:
same toggle shape as the wishlist against `artwork_likes`, additionally
answering with the recomputed like count; an insert error — a unique
violation included — is answered with `success:false,
error:'Failed to like'` (lines 726-728). -/
def toggleLike (s : State) (userId artId : Nat) (ins : DbOutcome) :
    ToggleResponse × State :=
  if artId == 0 then
    ({ success := false, liked := none, likeCount := none, error := some "Invalid artwork ID" }, s)
  else
    match s.likes.find? (fun p => p.1 == userId && p.2 == artId) with
    | some _ =>
      let likes := s.likes.filter (fun p => !(p.1 == userId && p.2 == artId))
      ({ success := true, liked := some false, likeCount := some (likeCountOf likes artId), error := none },
        { s with likes := likes })
    | none =>
      match ins with
      | .ok =>
        let likes := s.likes ++ [(userId, artId)]
        ({ success := true, liked := some true, likeCount := some (likeCountOf likes artId), error := none },
          { s with likes := likes })
      | .uniqueViolation =>
        ({ success := false, liked := none, likeCount := none, error := some "Failed to like" }, s)

/-- The session's user object with id, email and nullable name. -/
structure SessionUser where
  id : Nat
  email : String
  name : Option String
deriving DecidableEq, Repr

/-- Value `email.split('@')[0]`: the part before the first `@` (the whole
string when there is none). -/
def emailLocal (e : String) : String :=
  ⟨e.data.takeWhile (fun c => c ≠ '@')⟩

/-- Fallback `req.session.user.name || req.session.user.email.split('@')[0]`
(part_001 line 764): the denormalised display name written with a
comment. -/
def writeTimeName (su : SessionUser) : String :=
  match su.name with
  | some n => if n ≠ "" then n else emailLocal su.email
  | none => emailLocal su.email

/-- A comment row as materialised by
`SELECT c.*, u.name AS user_name FROM artwork_comments c JOIN users u`
(part_001 lines 666-670 and 773-776): node-sqlite3 assigns columns left
to right into one object, so the trailing `u.name AS user_name`
overwrites the `user_name` of `c.*` with the user's live — nullable —
name. -/
structure CommentView where
  id : Nat
  user_id : Nat
  artwork_id : Nat
  user_name : Option String
  comment : String
deriving DecidableEq, Repr

/-- The join of one comment row with `users` under the column overwrite
above; `none` when the inner join finds no user row. -/
def commentJoinView (users : List User) (c : CommentRow) : Option CommentView :=
  (users.find? (fun u => u.id == c.user_id)).map (fun u =>
    { id := c.id
      user_id := c.user_id
      artwork_id := c.artwork_id
      user_name := u.name
      comment := c.comment })

/-- The comments block of `GET /art/:id` (part_001 lines 666-670):
`SELECT c.*, u.name AS user_name FROM artwork_comments c JOIN users u ON
c.user_id = u.id WHERE c.artwork_id = ? ORDER BY c.created_at DESC`. -/
def listComments (s : State) (artId : Nat) : List CommentView :=
  ((s.comments.filter (fun c => c.artwork_id == artId)).reverse).filterMap
    (commentJoinView s.users)

/-- Result of `POST /art/:id/comment`. -/
inductive CommentResult where
  | failure (error : String)
  | ok (c : CommentView)
deriving DecidableEq, Repr

/-- Route `POST /art/:id/comment` (part_001 lines 744-783), past the login
guard: parse guard, trim-based emptiness and length validation, insert
of the denormalised row, then re-selection of the inserted row joined
with `users` (whose `u.name AS user_name` overwrites the stored
column). -/
def addComment (s : State) (su : SessionUser) (artId : Nat) (comment : Option String) :
    CommentResult × State :=
  if artId == 0 then (.failure "Invalid artwork ID", s)
  else
    let c := comment.getD ""
    if jsLen (jsTrim c) < 1 then (.failure "Comment cannot be empty", s)
    else if jsLen (jsTrim c) > 500 then (.failure "Comment is too long (max 500 characters)", s)
    else
      let row : CommentRow :=
        { id := s.nextCommentId
          user_id := su.id
          artwork_id := artId
          user_name := writeTimeName su
          comment := jsTrim c }
      let s' := { s with comments := s.comments ++ [row], nextCommentId := s.nextCommentId + 1 }
      match commentJoinView s'.users row with
      | none => (.failure "Failed to fetch comment", s')
      | some v => (.ok v, s')

/-- The `UPDATE artworks SET title = ?, description = ?, price = ? WHERE
id = ?` write of the admin edit route's no-new-image branch (part_001
lines 997-1002), after `parseFloat(price)`. -/
def editArtwork (s : State) (artId : Nat) (title description : String) (price : Rat) : State :=
  { s with artworks := s.artworks.map (fun a =>
      if a.id == artId then { a with title := title, description := description, price := price } else a) }

/-- Route `POST /admin/art/:id/delete` (part_001 lines 1007-1020):
`DELETE FROM artworks WHERE id = ?`, with no check for orders
referencing the artwork (the best-effort image unlink is outside the
state model). -/
def deleteArtwork (s : State) (artId : Nat) : State :=
  { s with artworks := s.artworks.filter (fun a => !(a.id == artId)) }

/-- A row of the user dashboard query (part_001 lines 638-640):
`SELECT o.*, a.title, a.image_path, a.price FROM orders o JOIN artworks
a ON o.artwork_id = a.id WHERE o.buyer_email = ?`.  The `price` column
comes from the artwork — `orders` has none. -/
structure DashboardRow where
  id : Nat
  artwork_id : Nat
  buyer_name : String
  buyer_email : Option String
  phone : String
  address : String
  payment_method : String
  quantity : Int
  status : String
  title : String
  image_path : String
  price : Rat
deriving DecidableEq, Repr

/-- Query of `GET /dashboard` orders (part_001 lines 638-640), newest
first; the inner join drops orders whose artwork row is gone, and SQL
`buyer_email = ?` never matches a NULL email. -/
def dashboardOrders (s : State) (email : String) : List DashboardRow :=
  ((s.orders.filter (fun o => o.buyer_email == some email)).reverse).filterMap
    (fun o => (s.artworks.find? (fun a => a.id == o.artwork_id)).map (fun a =>
      { id := o.id
        artwork_id := o.artwork_id
        buyer_name := o.buyer_name
        buyer_email := o.buyer_email
        phone := o.phone
        address := o.address
        payment_method := o.payment_method
        quantity := o.quantity
        status := o.status
        title := a.title
        image_path := a.image_path
        price := a.price }))

/-- A row of the admin orders query (part_001 lines 855-860):
`SELECT o.*, a.title, a.image_path FROM orders o JOIN artworks a ON
o.artwork_id = a.id`. -/
structure AdminOrderRow where
  id : Nat
  artwork_id : Nat
  buyer_name : String
  buyer_email : Option String
  phone : String
  address : String
  payment_method : String
  quantity : Int
  status : String
  title : String
  image_path : String
deriving DecidableEq, Repr

/-- Route `GET /admin/orders` (part_001 lines 855-860), newest first; an inner
join, so an order whose artwork row was deleted yields no row at all. -/
def adminOrders (s : State) : List AdminOrderRow :=
  (s.orders.reverse).filterMap
    (fun o => (s.artworks.find? (fun a => a.id == o.artwork_id)).map (fun a =>
      { id := o.id
        artwork_id := o.artwork_id
        buyer_name := o.buyer_name
        buyer_email := o.buyer_email
        phone := o.phone
        address := o.address
        payment_method := o.payment_method
        quantity := o.quantity
        status := o.status
        title := a.title
        image_path := a.image_path }))

/-! ## Concrete fixtures used by witnesses and counterexamples -/

/-- The artwork of the spec's end-to-end scenario: "Sunset" at 100. -/
def art0 : Artwork := ⟨1, "Sunset", "", 100, "/uploads/sunset.jpg"⟩

/-- A fresh store holding just `art0`. -/
def s0 : State := ⟨[art0], [], [], [], [], [], 1, 1⟩

/-- The spec's end-to-end checkout submission (buyer email absent,
quantity `"2"`). -/
def reqJane : BuyRequest :=
  ⟨some "Jane Doe", none, some "9876543210", some "12 Main St", none,
    some "560001", some "cod", some "2"⟩

/-- The same submission with the explicit quantity `"0"`. -/
def reqZero : BuyRequest := { reqJane with quantity := some "0" }

/-- The same submission with a buyer email, for the dashboard queries. -/
def reqJaneEmail : BuyRequest := { reqJane with buyer_email := some "jane@example.com" }

/-- A store with no rows at all. -/
def sEmpty : State := ⟨[], [], [], [], [], [], 1, 1⟩

/-- A registered user without a display name. -/
def u0 : User := ⟨1, "jane@example.com", "secret1", none⟩

/-- The fresh store with `art0` and `u0`. -/
def s7 : State := { s0 with users := [u0] }

/-- The session object of `u0`. -/
def su7 : SessionUser := ⟨1, "jane@example.com", none⟩

/-- A pending order by Jane for `art0`, as stored. -/
def orderJane : Order :=
  ⟨1, 1, "Jane Doe", some "jane@example.com", "9876543210",
    "12 Main St, Pin: 560001", "cod", 2, "pending"⟩

/-- A store holding `art0` and `orderJane`. -/
def s9 : State := ⟨[art0], [orderJane], [], [], [], [], 2, 1⟩

/-- A delivered order, for the backward status move. -/
def orderDelivered : Order := { orderJane with status := "delivered" }

/-- A store holding `art0` and `orderDelivered`. -/
def s4 : State := ⟨[art0], [orderDelivered], [], [], [], [], 2, 1⟩

/-- A second artwork, to keep a listing non-empty after a delete. -/
def art2 : Artwork := ⟨2, "Dawn", "", 50, "/uploads/dawn.jpg"⟩

/-- An order referencing `art2`. -/
def orderArt2 : Order := { orderJane with id := 2, artwork_id := 2 }

/-- A store with two artworks and one order on each. -/
def s9b : State := ⟨[art0, art2], [orderJane, orderArt2], [], [], [], [], 3, 1⟩

/-! ## Helper lemmas -/

/-- The status write sends the matching order to its status-updated copy. -/
theorem updateStatus_mem (s : State) (orderId : Nat) (st : String) (o : Order)
    (ho : o ∈ s.orders) (hid : o.id = orderId) :
    { o with status := st } ∈ (updateStatus s orderId st).orders := by
  refine List.mem_map.mpr ⟨o, ho, ?_⟩
  simp [hid]

/-- The status write leaves orders with another id untouched. -/
theorem updateStatus_mem_other (s : State) (orderId : Nat) (st : String) (o : Order)
    (ho : o ∈ s.orders) (hid : o.id ≠ orderId) :
    o ∈ (updateStatus s orderId st).orders := by
  refine List.mem_map.mpr ⟨o, ho, ?_⟩
  simp [hid]

/-! ## C4 — arbitrary status jumps within the enum -/

set_option linter.unusedVariables false in
/-- C4: for every existing order and every new status among pending,
accepted, shipped and delivered, the admin status update succeeds and
rewrites exactly the status field of that order — the hypothesis places
no condition on the order's current status, so the backward move
delivered → pending is included — while every other order row is left
unchanged. -/
theorem updateStatus_enum_any_transition
    (s : State) (orderId : Nat) (st : String) (o : Order)
    (hst : st = "pending" ∨ st = "accepted" ∨ st = "shipped" ∨ st = "delivered")
    (ho : o ∈ s.orders) (hid : o.id = orderId) :
    { o with status := st } ∈ (updateStatus s orderId st).orders ∧
    ({ o with status := st }).status = st ∧
    (∀ o' ∈ s.orders, o'.id ≠ orderId → o' ∈ (updateStatus s orderId st).orders) := by
  refine ⟨updateStatus_mem s orderId st o ho hid, rfl, ?_⟩
  intro o' ho' hid'
  exact updateStatus_mem_other s orderId st o' ho' hid'

/-- C4 witness: the delivered order `orderDelivered` is moved back to
pending, all fields but the status staying as they were. -/
theorem updateStatus_enum_any_transition_witness :
    { orderDelivered with status := "pending" } ∈ (updateStatus s4 1 "pending").orders ∧
    ({ orderDelivered with status := "pending" }).status = "pending" ∧
    (∀ o' ∈ s4.orders, o'.id ≠ 1 → o' ∈ (updateStatus s4 1 "pending").orders) :=
  updateStatus_enum_any_transition s4 1 "pending" orderDelivered (Or.inl rfl)
    (by simp [s4]) rfl

/-! ## C10 — no validation of the submitted status string -/

/-- C10: the admin status update applies no validation to the submitted
status value: for every string — the four enum values or anything else —
the update writes that string verbatim into the matching order's status
field, so the four-value enum is not an enforced invariant of the stored
state. -/
theorem updateStatus_unvalidated_verbatim
    (s : State) (orderId : Nat) (st : String) (o : Order)
    (ho : o ∈ s.orders) (hid : o.id = orderId) :
    { o with status := st } ∈ (updateStatus s orderId st).orders ∧
    ({ o with status := st }).status = st :=
  ⟨updateStatus_mem s orderId st o ho hid, rfl⟩

/-- C10 witness: the string "not-a-status", outside the enum, is written
verbatim. -/
theorem updateStatus_unvalidated_verbatim_witness :
    { orderJane with status := "not-a-status" } ∈ (updateStatus s9 1 "not-a-status").orders ∧
    ({ orderJane with status := "not-a-status" }).status = "not-a-status" :=
  updateStatus_unvalidated_verbatim s9 1 "not-a-status" orderJane (by simp [s9]) rfl

/-! ## C5 — unique-violation handling in the toggles -/

/-- C5 counterexample: on a store where the pair is not yet present, an
insert that reports a unique-constraint violation makes both toggle
routes answer `success:false` with their raw failure message — neither
returns the "already in this state" outcome `liked: true`. -/
theorem toggle_uniqueViolation_cex :
    (toggleWishlist sEmpty 1 2 .uniqueViolation).1 =
      { success := false, liked := none, likeCount := none,
        error := some "Failed to add to wishlist" } ∧
    (toggleWishlist sEmpty 1 2 .uniqueViolation).1.liked ≠ some true ∧
    (toggleLike sEmpty 1 2 .uniqueViolation).1 =
      { success := false, liked := none, likeCount := none,
        error := some "Failed to like" } ∧
    (toggleLike sEmpty 1 2 .uniqueViolation).1.liked ≠ some true := by
  refine ⟨rfl, by decide, rfl, by decide⟩

/-- C5 amended: when the storage layer reports a unique-constraint
violation on a toggle's insert, the operation does NOT reinterpret it as
the successful "already in this state" outcome: both toggles surface the
storage error as `success:false` with the route's failure message
(`Failed to add to wishlist` / `Failed to like`) and leave the store
unchanged. -/
theorem toggle_uniqueViolation_surfaces_error
    (s : State) (userId artId : Nat) (ha : artId ≠ 0)
    (hw : s.wishlist.find? (fun p => p.1 == userId && p.2 == artId) = none)
    (hl : s.likes.find? (fun p => p.1 == userId && p.2 == artId) = none) :
    toggleWishlist s userId artId .uniqueViolation =
      ({ success := false, liked := none, likeCount := none,
         error := some "Failed to add to wishlist" }, s) ∧
    toggleLike s userId artId .uniqueViolation =
      ({ success := false, liked := none, likeCount := none,
         error := some "Failed to like" }, s) := by
  have hz : (artId == 0) = false := by simpa using ha
  constructor
  · unfold toggleWishlist
    rw [hz, hw]
    rfl
  · unfold toggleLike
    rw [hz, hl]
    rfl

/-- C5 witness: the amended behaviour at the empty store, user 1 and
artwork 2. -/
theorem toggle_uniqueViolation_surfaces_error_witness :
    toggleWishlist sEmpty 1 2 .uniqueViolation =
      ({ success := false, liked := none, likeCount := none,
         error := some "Failed to add to wishlist" }, sEmpty) ∧
    toggleLike sEmpty 1 2 .uniqueViolation =
      ({ success := false, liked := none, likeCount := none,
         error := some "Failed to like" }, sEmpty) :=
  toggle_uniqueViolation_surfaces_error sEmpty 1 2 (by decide) rfl rfl

/-! ## C7 — comment display name: stored snapshot vs live join -/

/-- C7 counterexample: `u0` has no display name, so `addComment` writes
the denormalised fallback name "jane" (the email's local part) into the
comment row — yet both the comment returned by `addComment` and the
later listing show `none`, the user's live `name` from the join, not the
name captured at write time. -/
theorem addComment_displays_live_name_cex :
    (addComment s7 su7 5 (some "Nice art")).1 =
      .ok { id := 1, user_id := 1, artwork_id := 5, user_name := none, comment := "Nice art" } ∧
    ((addComment s7 su7 5 (some "Nice art")).2.comments.map CommentRow.user_name) = ["jane"] ∧
    (listComments (addComment s7 su7 5 (some "Nice art")).2 5).map CommentView.user_name =
      [none] :=
  ⟨by decide, by decide, by decide⟩

/-- Inversion of a successful `addComment`: the store gained exactly the
denormalised row, and the returned comment is that row re-joined with
`users` (live name overriding the stored column). -/
theorem addComment_ok_inv
    (s : State) (su : SessionUser) (artId : Nat) (c : Option String)
    (v : CommentView) (s' : State)
    (h : addComment s su artId c = (.ok v, s')) :
    s' = { s with
            comments := s.comments ++
              [⟨s.nextCommentId, su.id, artId, writeTimeName su, jsTrim (c.getD "")⟩],
            nextCommentId := s.nextCommentId + 1 } ∧
    commentJoinView s.users
      ⟨s.nextCommentId, su.id, artId, writeTimeName su, jsTrim (c.getD "")⟩ = some v := by
  simp only [addComment] at h
  split at h
  · exact absurd h (by simp)
  · split at h
    · exact absurd h (by simp)
    · split at h
      · exact absurd h (by simp)
      · split at h
        · exact absurd h (by simp)
        · rename_i v' heq
          rw [Prod.mk.injEq] at h
          obtain ⟨h1, h2⟩ := h
          cases h1
          exact ⟨h2.symm, heq⟩

/-- C7 amended: `addComment` does store the denormalised display name
captured at write time, but neither the value it returns nor a later
listing of the artwork's comments shows it: both queries join `users`
and alias the live `u.name` over the stored column, so the displayed
name always tracks the user row's current (nullable) name, and a change
to the user's name DOES retroactively change what old comments
display. -/
theorem addComment_snapshot_stored_but_live_name_shown
    (s : State) (su : SessionUser) (artId : Nat) (c : Option String)
    (v : CommentView) (s' : State)
    (h : addComment s su artId c = (.ok v, s')) :
    (∃ row : CommentRow, s'.comments = s.comments ++ [row] ∧
      row.user_name = writeTimeName su) ∧
    (∀ u : User, s.users.find? (fun x => x.id == su.id) = some u → v.user_name = u.name) ∧
    (∀ (t : State) (w : CommentView), w ∈ listComments t artId →
      ∀ u : User, t.users.find? (fun x => x.id == w.user_id) = some u →
        w.user_name = u.name) := by
  obtain ⟨hs', hjoin⟩ := addComment_ok_inv s su artId c v s' h
  refine ⟨⟨_, by rw [hs'], rfl⟩, ?_, ?_⟩
  · intro u hu
    simp only [commentJoinView] at hjoin
    rw [hu] at hjoin
    simp only [Option.map_some'] at hjoin
    obtain rfl : _ = v := Option.some.inj hjoin
    rfl
  · intro t w hw u hu
    simp only [listComments] at hw
    obtain ⟨cRow, hmem, hjw⟩ := List.mem_filterMap.mp hw
    simp only [commentJoinView] at hjw
    rcases hfind : t.users.find? (fun x => x.id == cRow.user_id) with _ | u'
    · rw [hfind] at hjw
      exact absurd hjw (by simp)
    · rw [hfind] at hjw
      simp only [Option.map_some'] at hjw
      obtain rfl : _ = w := Option.some.inj hjw
      have hu2 : t.users.find? (fun x => x.id == cRow.user_id) = some u := hu
      obtain rfl : u' = u := Option.some.inj (hfind.symm.trans hu2)
      rfl

/-- The comment view returned for `su7`'s comment: live name `none`. -/
def v7 : CommentView := ⟨1, 1, 5, none, "Nice art"⟩

/-- The store after `su7` comments on artwork 5. -/
def s7after : State := { s7 with comments := [⟨1, 1, 5, "jane", "Nice art"⟩], nextCommentId := 2 }

/-- C7 witness: the amended theorem applied to `u0`'s concrete comment. -/
theorem addComment_snapshot_stored_but_live_name_shown_witness :
    (∃ row : CommentRow, s7after.comments = s7.comments ++ [row] ∧
      row.user_name = writeTimeName su7) ∧
    (∀ u : User, s7.users.find? (fun x => x.id == su7.id) = some u → v7.user_name = u.name) ∧
    (∀ (t : State) (w : CommentView), w ∈ listComments t 5 →
      ∀ u : User, t.users.find? (fun x => x.id == w.user_id) = some u →
        w.user_name = u.name) :=
  addComment_snapshot_stored_but_live_name_shown s7 su7 5 (some "Nice art") v7 s7after (by decide)

/-! ## C8 — comment length validation -/

/-- C8: with a valid artwork id, a comment that trims to the empty
string is rejected as empty; one whose trimmed length exceeds 500 is
rejected as too long; and one whose trimmed length is exactly 500 is
accepted — the trimmed text is inserted, and no validation failure is
possible (the only remaining failure mode is the post-insert re-fetch
of the joined row). -/
theorem addComment_length_validation
    (s : State) (su : SessionUser) (artId : Nat) (c : Option String)
    (ha : artId ≠ 0) :
    (jsTrim (c.getD "") = "" →
      addComment s su artId c = (.failure "Comment cannot be empty", s)) ∧
    (500 < jsLen (jsTrim (c.getD "")) →
      addComment s su artId c = (.failure "Comment is too long (max 500 characters)", s)) ∧
    (jsLen (jsTrim (c.getD "")) = 500 →
      (addComment s su artId c).2.comments =
        s.comments ++
          [⟨s.nextCommentId, su.id, artId, writeTimeName su, jsTrim (c.getD "")⟩] ∧
      (∀ e : String, (addComment s su artId c).1 = .failure e →
        e = "Failed to fetch comment")) := by
  have hz : (artId == 0) = false := by simpa using ha
  refine ⟨?_, ?_, ?_⟩
  · intro h
    have h1 : jsLen (jsTrim (c.getD "")) < 1 := by rw [h]; decide
    simp [addComment, hz, h1]
  · intro h
    have h1 : ¬ jsLen (jsTrim (c.getD "")) < 1 := by omega
    simp [addComment, hz, h1, h]
  · intro h
    have h1 : ¬ jsLen (jsTrim (c.getD "")) < 1 := by omega
    have h2 : ¬ 500 < jsLen (jsTrim (c.getD "")) := by omega
    constructor
    · rcases hj : commentJoinView s.users
          ⟨s.nextCommentId, su.id, artId, writeTimeName su, jsTrim (c.getD "")⟩ with _ | v <;>
        simp [addComment, hz, h1, h2, hj]
    · intro e he
      rcases hj : commentJoinView s.users
          ⟨s.nextCommentId, su.id, artId, writeTimeName su, jsTrim (c.getD "")⟩ with _ | v <;>
        simp [addComment, hz, h1, h2, hj] at he
      exact he.symm

/-- A 500-character comment. -/
def c500 : String := ⟨List.replicate 500 'a'⟩

/-- A 501-character comment. -/
def c501 : String := ⟨List.replicate 501 'b'⟩

set_option maxRecDepth 20000 in
/-- C8 witness: a whitespace-only comment is rejected as empty, the
501-character comment as too long, and the 500-character comment is
inserted with no validation failure. -/
theorem addComment_length_validation_witness :
    (addComment s7 su7 5 (some "   ") = (.failure "Comment cannot be empty", s7)) ∧
    (addComment s7 su7 5 (some c501) =
      (.failure "Comment is too long (max 500 characters)", s7)) ∧
    ((addComment s7 su7 5 (some c500)).2.comments =
      s7.comments ++ [⟨s7.nextCommentId, su7.id, 5, writeTimeName su7, jsTrim ((some c500).getD "")⟩] ∧
     (∀ e : String, (addComment s7 su7 5 (some c500)).1 = .failure e →
        e = "Failed to fetch comment")) :=
  ⟨(addComment_length_validation s7 su7 5 (some "   ") (by decide)).1 (by decide),
   (addComment_length_validation s7 su7 5 (some c501) (by decide)).2.1 (by decide),
   (addComment_length_validation s7 su7 5 (some c500) (by decide)).2.2 (by decide)⟩

/-! ## C1 — validation collects all failures, no write -/

/-- Membership in one error push followed by the rest of the list. -/
theorem mem_ite_cons (x y : String) (b : Bool) (rest : List String) :
    (x ∈ (if b then [y] else []) ++ rest) ↔ ((b = true ∧ x = y) ∨ x ∈ rest) := by
  cases b <;> simp

/-- Membership in the final error push. -/
theorem mem_ite_nil (x y : String) (b : Bool) :
    (x ∈ (if b then [y] else [])) ↔ (b = true ∧ x = y) := by
  cases b <;> simp

/-- C1: when the artwork exists and at least one field validation fails,
`placeOrder` returns the full error list together with the computed
total `art.price * qty` (and the defaulted quantity), and the store —
the orders table included — is unchanged; each of the six messages is in
the returned list exactly when its own check fails, independently of the
others, so ALL failing validations are collected. -/
theorem placeOrder_collects_all_errors
    (s : State) (artId : Nat) (r : BuyRequest) (art : Artwork)
    (hart : s.artworks.find? (fun a => a.id == artId) = some art)
    (herr : validationErrors r ≠ []) :
    placeOrder s artId r =
      (.validationFailed (validationErrors r)
        (art.price * (jsQty r.quantity : Rat)) (jsQty r.quantity), s) ∧
    (("Full name is required" ∈ validationErrors r) ↔ nameFail r = true) ∧
    (("Valid phone number is required (minimum 10 digits)" ∈ validationErrors r) ↔
      phoneFail r = true) ∧
    (("Address line 1 is required" ∈ validationErrors r) ↔ addr1Fail r = true) ∧
    (("Valid pin code is required (6 digits)" ∈ validationErrors r) ↔ pinFail r = true) ∧
    (("Invalid payment method" ∈ validationErrors r) ↔ payFail r = true) ∧
    (("Quantity must be between 1 and 5" ∈ validationErrors r) ↔ qtyFail r = true) := by
  have hne : (validationErrors r).isEmpty = false := by
    simpa [List.isEmpty_iff] using herr
  refine ⟨?_, ?_, ?_, ?_, ?_, ?_, ?_⟩
  · simp [placeOrder, hart, hne]
  all_goals simp [validationErrors, mem_ite_cons, mem_ite_nil]

/-- A submission failing four of the six checks (short name, short
phone, unknown payment method, quantity 9). -/
def reqBad : BuyRequest :=
  ⟨some "J", none, some "12345", some "12 Main St", none, some "560001",
    some "upi", some "9"⟩

/-- C1 witness: the four failing checks of `reqBad` are all collected,
the total is computed from `art0`, and the store is untouched. -/
theorem placeOrder_collects_all_errors_witness :
    placeOrder s0 1 reqBad =
      (.validationFailed (validationErrors reqBad)
        (art0.price * (jsQty reqBad.quantity : Rat)) (jsQty reqBad.quantity), s0) ∧
    (("Full name is required" ∈ validationErrors reqBad) ↔ nameFail reqBad = true) ∧
    (("Valid phone number is required (minimum 10 digits)" ∈ validationErrors reqBad) ↔
      phoneFail reqBad = true) ∧
    (("Address line 1 is required" ∈ validationErrors reqBad) ↔ addr1Fail reqBad = true) ∧
    (("Valid pin code is required (6 digits)" ∈ validationErrors reqBad) ↔
      pinFail reqBad = true) ∧
    (("Invalid payment method" ∈ validationErrors reqBad) ↔ payFail reqBad = true) ∧
    (("Quantity must be between 1 and 5" ∈ validationErrors reqBad) ↔
      qtyFail reqBad = true) :=
  placeOrder_collects_all_errors s0 1 reqBad art0 (by decide) (by decide)

/-! ## C2 — quantity parsing, defaulting and range -/

/-- C2 counterexample: the explicit quantity `"0"` parses to the integer
0 — an explicit out-of-range value — yet `parseInt(quantity) || 1`
treats the falsy 0 like a missing value, so the otherwise valid
submission succeeds and writes an order with quantity 1 instead of
returning a validation error and writing nothing. -/
theorem placeOrder_quantity_zero_written_cex :
    jsParseInt "0" = some 0 ∧
    (placeOrder s0 1 reqZero).1 = .success 1 art0 1 ∧
    ((placeOrder s0 1 reqZero).2.orders.map Order.quantity) = [1] :=
  ⟨by decide, by decide, by decide⟩

/-- The quantity error message is pushed exactly when the defaulted
quantity misses the range. -/
theorem qty_error_mem (r : BuyRequest) :
    ("Quantity must be between 1 and 5" ∈ validationErrors r) ↔ qtyFail r = true := by
  simp [validationErrors, mem_ite_cons, mem_ite_nil]

/-- C2 amended: a missing or unparseable quantity silently defaults to 1
— and so does the explicit value 0, because the `|| 1` fallback treats
the falsy parse result 0 like a missing value; an explicit nonzero
integer outside [1,5] yields the quantity validation error and no write;
and an input parsing into [1,5] that passes the remaining validations is
stored exactly. -/
theorem placeOrder_quantity_amended
    (s : State) (artId : Nat) (r : BuyRequest) (art : Artwork)
    (hart : s.artworks.find? (fun a => a.id == artId) = some art) :
    ((r.quantity.bind jsParseInt = none ∨ r.quantity.bind jsParseInt = some 0) →
      jsQty r.quantity = 1 ∧ qtyFail r = false) ∧
    (∀ n : Int, r.quantity.bind jsParseInt = some n → n ≠ 0 → (n < 1 ∨ 5 < n) →
      "Quantity must be between 1 and 5" ∈ validationErrors r ∧
      (placeOrder s artId r).2 = s) ∧
    (∀ n : Int, r.quantity.bind jsParseInt = some n → 1 ≤ n → n ≤ 5 →
      validationErrors r = [] →
      ∃ o : Order, (placeOrder s artId r).2.orders = s.orders ++ [o] ∧
        o.quantity = n) := by
  refine ⟨?_, ?_, ?_⟩
  · rintro (h | h) <;> constructor <;> simp [jsQty, qtyFail, h]
  · intro n hn hnz hout
    have hq : jsQty r.quantity = n := by simp [jsQty, hn, hnz]
    have hqf : qtyFail r = true := by
      simp only [qtyFail, hq, Bool.or_eq_true, decide_eq_true_eq]
      omega
    have hmem : "Quantity must be between 1 and 5" ∈ validationErrors r :=
      (qty_error_mem r).mpr hqf
    have hne : (validationErrors r).isEmpty = false := by
      simpa [List.isEmpty_iff] using List.ne_nil_of_mem hmem
    exact ⟨hmem, by simp [placeOrder, hart, hne]⟩
  · intro n hn h1 h5 hval
    have hnz : ¬ n = 0 := by omega
    have hq : jsQty r.quantity = n := by simp [jsQty, hn, hnz]
    have hempty : (validationErrors r).isEmpty = true := by simp [hval]
    exact ⟨{ id := s.nextOrderId, artwork_id := artId,
             buyer_name := jsTrim (fieldVal r.buyer_name),
             buyer_email :=
               if truthy r.buyer_email then some (jsTrim (fieldVal r.buyer_email)) else none,
             phone := jsTrim (fieldVal r.phone),
             address := composeAddress r,
             payment_method := fieldVal r.payment_method,
             quantity := jsQty r.quantity, status := "pending" },
           by simp [placeOrder, hart, hempty], hq⟩

/-- C2 witness: the missing-value default, the out-of-range error for
quantity 9, and the exact storage of quantity 2, at concrete inputs. -/
theorem placeOrder_quantity_amended_witness :
    (jsQty (some "garbage") = 1 ∧ qtyFail { reqJane with quantity := some "garbage" } = false) ∧
    ("Quantity must be between 1 and 5" ∈ validationErrors reqBad ∧
      (placeOrder s0 1 reqBad).2 = s0) ∧
    (∃ o : Order, (placeOrder s0 1 reqJane).2.orders = s0.orders ++ [o] ∧
      o.quantity = 2) :=
  ⟨by
    have h := (placeOrder_quantity_amended s0 1
      { reqJane with quantity := some "garbage" } art0 (by decide)).1 (Or.inl (by decide))
    exact h,
   (placeOrder_quantity_amended s0 1 reqBad art0 (by decide)).2.1 9 (by decide)
     (by decide) (by decide),
   (placeOrder_quantity_amended s0 1 reqJane art0 (by decide)).2.2 2 (by decide)
     (by decide) (by decide) (by decide)⟩

/-! ## C3 — the successful checkout write -/

/-- C3: when every validation passes and the artwork exists,
`placeOrder` appends exactly one order row: its id is the fresh order
id that is also returned alongside the artwork for the confirmation
view, its status is "pending", and its address is the trimmed
composition `line1, Pin: postal` — with `, line2` spliced in exactly
when address line 2 was supplied non-empty. -/
theorem placeOrder_success_inserts_pending_order
    (s : State) (artId : Nat) (r : BuyRequest) (art : Artwork)
    (hart : s.artworks.find? (fun a => a.id == artId) = some art)
    (hval : validationErrors r = []) :
    ∃ o : Order,
      (placeOrder s artId r).1 = .success s.nextOrderId art (jsQty r.quantity) ∧
      (placeOrder s artId r).2.orders = s.orders ++ [o] ∧
      o.id = s.nextOrderId ∧
      o.status = "pending" ∧
      o.quantity = jsQty r.quantity ∧
      (truthy r.address2 = true →
        o.address = jsTrim (fieldVal r.address1) ++ ", " ++ jsTrim (fieldVal r.address2) ++
          ", Pin: " ++ jsTrim (fieldVal r.pincode)) ∧
      (truthy r.address2 = false →
        o.address = jsTrim (fieldVal r.address1) ++ ", Pin: " ++ jsTrim (fieldVal r.pincode)) := by
  have hempty : (validationErrors r).isEmpty = true := by simp [hval]
  refine ⟨{ id := s.nextOrderId, artwork_id := artId,
            buyer_name := jsTrim (fieldVal r.buyer_name),
            buyer_email :=
              if truthy r.buyer_email then some (jsTrim (fieldVal r.buyer_email)) else none,
            phone := jsTrim (fieldVal r.phone),
            address := composeAddress r,
            payment_method := fieldVal r.payment_method,
            quantity := jsQty r.quantity, status := "pending" },
          ?_, ?_, rfl, rfl, rfl, ?_, ?_⟩
  · simp [placeOrder, hart, hempty]
  · simp [placeOrder, hart, hempty]
  · intro h2
    simp [composeAddress, h2, String.append_assoc]
  · intro h2
    simp [composeAddress, h2]

/-- C3 witness: the spec's end-to-end submission — Jane Doe, cash on
delivery, quantity 2, no address line 2 — against `art0`. -/
theorem placeOrder_success_inserts_pending_order_witness :
    ∃ o : Order,
      (placeOrder s0 1 reqJane).1 = .success s0.nextOrderId art0 (jsQty reqJane.quantity) ∧
      (placeOrder s0 1 reqJane).2.orders = s0.orders ++ [o] ∧
      o.id = s0.nextOrderId ∧
      o.status = "pending" ∧
      o.quantity = jsQty reqJane.quantity ∧
      (truthy reqJane.address2 = true →
        o.address = jsTrim (fieldVal reqJane.address1) ++ ", " ++
          jsTrim (fieldVal reqJane.address2) ++ ", Pin: " ++ jsTrim (fieldVal reqJane.pincode)) ∧
      (truthy reqJane.address2 = false →
        o.address = jsTrim (fieldVal reqJane.address1) ++ ", Pin: " ++
          jsTrim (fieldVal reqJane.pincode)) :=
  placeOrder_success_inserts_pending_order s0 1 reqJane art0 (by decide) (by decide)

/-! ## C6 — order price recomputed from the live artwork -/

/-- The artwork edit rewrites the row found by id in place: looking the
id up after the edit returns the edited row. -/
theorem find?_map_edit (l : List Artwork) (artId : Nat) (t d : String) (p : Rat)
    (art : Artwork) (h : l.find? (fun a => a.id == artId) = some art) :
    (l.map (fun a => if a.id == artId then
        { a with title := t, description := d, price := p } else a)).find?
      (fun a => a.id == artId) =
    some { art with title := t, description := d, price := p } := by
  rw [List.find?_map]
  have hcomp : ((fun a : Artwork => a.id == artId) ∘ (fun a : Artwork =>
      if a.id == artId then { a with title := t, description := d, price := p } else a))
      = fun a : Artwork => a.id == artId := by
    funext a
    by_cases hh : (a.id == artId) = true
    · simp [Function.comp, hh]
    · simp [Function.comp, hh]
  rw [hcomp, h]
  have hpos : (art.id == artId) = true :=
    @List.find?_some Artwork (fun a : Artwork => a.id == artId) art l h
  rw [Option.map_some', if_pos hpos]

/-- C6: no price is stored on the order row (the `Order` record carries
none); the price a buyer's dashboard shows for an order is re-read from
the referenced artwork row at render time, so after the artwork's price
is edited to `p`, the historical order displays `p` — the NEW price, not
the price at submit time. -/
theorem dashboard_price_tracks_current_artwork
    (s : State) (artId : Nat) (r : BuyRequest) (art : Artwork)
    (em t d : String) (p : Rat)
    (hart : s.artworks.find? (fun a => a.id == artId) = some art)
    (hval : validationErrors r = [])
    (hem : r.buyer_email = some em) (hne : em ≠ "") (hemt : jsTrim em = em) :
    ∃ v ∈ dashboardOrders (editArtwork (placeOrder s artId r).2 artId t d p) em,
      v.id = s.nextOrderId ∧ v.price = p ∧ (p ≠ art.price → v.price ≠ art.price) := by
  have hempty : (validationErrors r).isEmpty = true := by simp [hval]
  have htr : truthy r.buyer_email = true := by simp [truthy, hem, hne]
  have hbe : (if truthy r.buyer_email then some (jsTrim (fieldVal r.buyer_email)) else none)
      = some em := by rw [if_pos htr]; simp [fieldVal, hem, hemt]
  have hs1 : (placeOrder s artId r).2 =
      { s with
        orders := s.orders ++
          [{ id := s.nextOrderId, artwork_id := artId,
             buyer_name := jsTrim (fieldVal r.buyer_name),
             buyer_email := some em,
             phone := jsTrim (fieldVal r.phone),
             address := composeAddress r,
             payment_method := fieldVal r.payment_method,
             quantity := jsQty r.quantity, status := "pending" }],
        nextOrderId := s.nextOrderId + 1 } := by
    simp [placeOrder, hart, hempty, hbe]
  rw [hs1]
  refine ⟨{ id := s.nextOrderId, artwork_id := artId,
            buyer_name := jsTrim (fieldVal r.buyer_name),
            buyer_email := some em,
            phone := jsTrim (fieldVal r.phone),
            address := composeAddress r,
            payment_method := fieldVal r.payment_method,
            quantity := jsQty r.quantity, status := "pending",
            title := t, image_path := art.image_path, price := p }, ?_, rfl, rfl,
          fun hp => hp⟩
  simp only [dashboardOrders, editArtwork]
  apply List.mem_filterMap.mpr
  refine ⟨{ id := s.nextOrderId, artwork_id := artId,
            buyer_name := jsTrim (fieldVal r.buyer_name),
            buyer_email := some em,
            phone := jsTrim (fieldVal r.phone),
            address := composeAddress r,
            payment_method := fieldVal r.payment_method,
            quantity := jsQty r.quantity, status := "pending" }, ?_, ?_⟩
  · rw [List.mem_reverse, List.mem_filter]
    exact ⟨List.mem_append_right _ (List.mem_singleton.mpr rfl), by simp⟩
  · rw [find?_map_edit s.artworks artId t d p art hart]
    rw [Option.map_some']

/-- C6 witness: Jane's order is placed at price 100; after the artwork
is repriced to 150, her dashboard row shows 150. -/
theorem dashboard_price_tracks_current_artwork_witness :
    ∃ v ∈ dashboardOrders
        (editArtwork (placeOrder s0 1 reqJaneEmail).2 1 "Sunset" "" 150) "jane@example.com",
      v.id = s0.nextOrderId ∧ v.price = 150 ∧
      ((150 : Rat) ≠ art0.price → v.price ≠ art0.price) :=
  dashboard_price_tracks_current_artwork s0 1 reqJaneEmail art0 "jane@example.com"
    "Sunset" "" 150 (by decide) (by decide) rfl (by decide) (by decide)

/-! ## C9 — deleting an artwork that has orders -/

/-- C9 counterexample: deleting artwork 1, which order 1 references,
leaves the order row in the table, but the admin order listing — an
inner join — returns no row at all for it: the order does not remain
listed with its artwork fields omitted, it vanishes from the listing. -/
theorem deleteArtwork_drops_order_from_listing_cex :
    adminOrders s9 ≠ [] ∧
    adminOrders (deleteArtwork s9 1) = [] ∧
    (deleteArtwork s9 1).orders = [orderJane] :=
  ⟨by decide, by decide, by decide⟩

/-- C9 amended: `deleteArtwork` checks nothing and always deletes the
artwork row, leaving every order row in place; the order listing (a
total function, so it cannot fail) afterwards contains no row
referencing the deleted artwork — a dangling order is omitted from the
listing entirely rather than shown without artwork fields — and every
row it does produce still resolves its artwork. -/
theorem deleteArtwork_amended (s : State) (artId : Nat) :
    (deleteArtwork s artId).orders = s.orders ∧
    (∀ v ∈ adminOrders (deleteArtwork s artId), v.artwork_id ≠ artId) ∧
    (∀ v ∈ adminOrders (deleteArtwork s artId),
      ∃ a ∈ (deleteArtwork s artId).artworks, a.id = v.artwork_id) := by
  have key : ∀ v ∈ adminOrders (deleteArtwork s artId),
      v.artwork_id ≠ artId ∧
      ∃ a ∈ (deleteArtwork s artId).artworks, a.id = v.artwork_id := by
    intro v hv
    simp only [adminOrders] at hv
    obtain ⟨o, hmem, hjoin⟩ := List.mem_filterMap.mp hv
    rcases hfind : (deleteArtwork s artId).artworks.find? (fun a => a.id == o.artwork_id)
      with _ | a
    · rw [hfind] at hjoin
      exact absurd hjoin (by simp)
    · rw [hfind, Option.map_some'] at hjoin
      obtain rfl := Option.some.inj hjoin
      have hmem2 : a ∈ (deleteArtwork s artId).artworks := List.mem_of_find?_eq_some hfind
      have hpred : (a.id == o.artwork_id) = true :=
        @List.find?_some Artwork (fun x : Artwork => x.id == o.artwork_id) a _ hfind
      have ha : a.id = o.artwork_id := by simpa using hpred
      have hfil : a ∈ s.artworks.filter (fun x => !(x.id == artId)) := hmem2
      have hno : a.id ≠ artId := by simpa using (List.mem_filter.mp hfil).2
      constructor
      · show o.artwork_id ≠ artId
        rw [← ha]
        exact hno
      · exact ⟨a, hmem2, ha⟩
  exact ⟨rfl, fun v hv => (key v hv).1, fun v hv => (key v hv).2⟩

/-- The admin listing row of `orderJane`, surviving the delete of
artwork 2. -/
def vKeep : AdminOrderRow :=
  ⟨1, 1, "Jane Doe", some "jane@example.com", "9876543210",
    "12 Main St, Pin: 560001", "cod", 2, "pending", "Sunset", "/uploads/sunset.jpg"⟩

/-- C9 witness: after deleting artwork 2 from the two-artwork store, the
orders table is untouched, and the surviving listed row `vKeep` neither
references artwork 2 nor fails to resolve its artwork. -/
theorem deleteArtwork_amended_witness :
    (deleteArtwork s9b 2).orders = s9b.orders ∧
    vKeep.artwork_id ≠ 2 ∧
    (∃ a ∈ (deleteArtwork s9b 2).artworks, a.id = vKeep.artwork_id) :=
  ⟨(deleteArtwork_amended s9b 2).1,
   (deleteArtwork_amended s9b 2).2.1 vKeep (by decide),
   (deleteArtwork_amended s9b 2).2.2 vKeep (by decide)⟩
